import Mathlib

/-!
# Theme toggling of `assets/js/main.js`

A shallow embedding of the two functions of `assets/js/main.js`, `theme_toggle`
and `theme_init`, over an explicit model of the browser state they touch:

* the root `<html>` element, with its attribute list and its class list
  (the token set of its `class` attribute);
* `window.localStorage`, an ordered list of key/value entries;
* the console, the list of logged lines.

The script assumes that `document.getElementsByTagName('html')[0]` exists; the
model starts from there.  `classList.add` and `classList.remove` validate their
token as the DOM does and can throw, which is how `theme_init` can end abruptly;
`localStorage.setItem` throws when the write does not fit the storage quota,
which is how `theme_toggle` can.  An element may carry several attributes with
one qualified name (in different namespaces); `hasAttribute`, `setAttribute` and
`removeAttribute` act on the first of them.
-/

namespace MainJs

/-! ## Browser state -/

/-- The exceptions the calls of the script can raise: the two of `DOMTokenList`
on a bad token, and the one of `Storage.setItem` on a write that does not fit. -/
inductive DOMException where
  | SyntaxError
  | InvalidCharacterError
  | QuotaExceededError
deriving DecidableEq, Repr

/-- The root element: its attributes other than `class`, as name/value entries
in document order, and the class list that the `class` attribute holds. -/
structure Element where
  attributes : List (String × String)
  classList : List String
deriving DecidableEq, Repr

/-- The part of the browser the script reads and writes; `storageQuota` is the
room the browser grants `localStorage`, counted in characters of keys and
values. -/
structure Page where
  html : Element
  localStorage : List (String × String)
  storageQuota : Nat
  console : List String
deriving DecidableEq, Repr

/-- How a call ends: normally with a value, or with an uncaught exception;
either way the page is left as the statements executed so far made it. -/
inductive Completion (α : Type) where
  | normal (value : α) (page : Page)
  | abrupt (e : DOMException) (page : Page)
deriving Repr

/-- The page a call leaves behind, whether it returned or threw. -/
def Completion.page {α : Type} : Completion α → Page
  | .normal _ p => p
  | .abrupt _ p => p

/-- A JavaScript computation over the page. -/
def JS (α : Type) : Type := Page → Completion α

/-- Sequencing: the second computation runs only when the first ends normally. -/
def JS.bind {α β : Type} (m : JS α) (f : α → JS β) : JS β := fun p =>
  match m p with
  | .normal a q => f a q
  | .abrupt e q => .abrupt e q

/-- The computation that returns a value and leaves the page alone. -/
def JS.pure {α : Type} (a : α) : JS α := fun p => .normal a p

instance : Monad JS where
  pure := JS.pure
  bind := JS.bind

/-! ## Attribute lists and storage entries -/

/-- The value of the entry under this name, if there is one. -/
def getEntry (name : String) : List (String × String) → Option String
  | [] => none
  | kv :: l => if kv.1 = name then some kv.2 else getEntry name l

/-- Is there an entry under this name. -/
def hasEntry (name : String) (l : List (String × String)) : Bool :=
  (getEntry name l).isSome

/-- Overwrite the value under this name in place, or append a new entry. -/
def setEntry (name value : String) : List (String × String) → List (String × String)
  | [] => [(name, value)]
  | kv :: l => if kv.1 = name then (kv.1, value) :: l else kv :: setEntry name value l

/-- Drop what is stored under this name (a storage key has one entry). -/
def removeEntry (name : String) : List (String × String) → List (String × String)
  | [] => []
  | kv :: l => if kv.1 = name then removeEntry name l else kv :: removeEntry name l

/-- Drop the first entry under this name and keep any later one. -/
def removeFirstEntry (name : String) : List (String × String) → List (String × String)
  | [] => []
  | kv :: l => if kv.1 = name then l else kv :: removeFirstEntry name l

/-- How many entries there are under this name. -/
def countEntries (name : String) : List (String × String) → Nat
  | [] => 0
  | kv :: l => if kv.1 = name then countEntries name l + 1 else countEntries name l

/-- The room the entries take: the characters of every key and value. -/
def storageSize : List (String × String) → Nat
  | [] => 0
  | kv :: l => kv.1.length + kv.2.length + storageSize l

/-! ## `DOMTokenList` -/

/-- ASCII whitespace of the DOM standard: TAB, LF, FF, CR and SPACE. -/
def isAsciiWhitespace (c : Char) : Bool :=
  c.toNat == 9 || c.toNat == 10 || c.toNat == 12 || c.toNat == 13 || c.toNat == 32

/-- The check `add` and `remove` make on a token before doing anything. -/
def validateToken (token : String) : Except DOMException Unit :=
  if token.data.isEmpty then .error .SyntaxError
  else if token.data.any isAsciiWhitespace then .error .InvalidCharacterError
  else .ok ()

/-- Append to an ordered set: nothing happens when the token is there already. -/
def tokenSetAppend (token : String) (l : List String) : List String :=
  if l.contains token then l else l ++ [token]

/-- Remove from an ordered set. -/
def tokenSetRemove (token : String) (l : List String) : List String :=
  l.filter (fun t => t != token)

/-! ## The DOM and storage calls the script makes -/

/-- Models `htmlTag.hasAttribute(name)`. -/
def hasAttribute (name : String) : JS Bool := fun p =>
  .normal (hasEntry name p.html.attributes) p

/-- Models `htmlTag.setAttribute(name, value)`, for a well-formed lowercase name. -/
def setAttribute (name value : String) : JS Unit := fun p =>
  .normal () { p with html := { p.html with attributes := setEntry name value p.html.attributes } }

/-- Models `htmlTag.removeAttribute(name)`: the first attribute with that
qualified name goes. -/
def removeAttribute (name : String) : JS Unit := fun p =>
  .normal ()
    { p with html := { p.html with attributes := removeFirstEntry name p.html.attributes } }

/-- Models `htmlTag.classList.add(token)`. -/
def classList_add (token : String) : JS Unit := fun p =>
  match validateToken token with
  | .error e => .abrupt e p
  | .ok () =>
    .normal () { p with html := { p.html with classList := tokenSetAppend token p.html.classList } }

/-- Models `htmlTag.classList.remove(token)`. -/
def classList_remove (token : String) : JS Unit := fun p =>
  match validateToken token with
  | .error e => .abrupt e p
  | .ok () =>
    .normal () { p with html := { p.html with classList := tokenSetRemove token p.html.classList } }

/-- Models `window.localStorage.getItem(key)`; `none` is `null`. -/
def localStorage_getItem (key : String) : JS (Option String) := fun p =>
  .normal (getEntry key p.localStorage) p

/-- Models `window.localStorage.setItem(key, value)`: the entry is written when
the storage with it fits the quota, otherwise nothing is written and
`QuotaExceededError` is thrown. -/
def localStorage_setItem (key value : String) : JS Unit := fun p =>
  if storageSize (setEntry key value p.localStorage) ≤ p.storageQuota then
    .normal () { p with localStorage := setEntry key value p.localStorage }
  else
    .abrupt .QuotaExceededError p

/-- Models `window.localStorage.removeItem(key)`. -/
def localStorage_removeItem (key : String) : JS Unit := fun p =>
  .normal () { p with localStorage := removeEntry key p.localStorage }

/-- Models `console.log(line)`. -/
def console_log (line : String) : JS Unit := fun p =>
  .normal () { p with console := p.console ++ [line] }

/-! ## The script -/

/-- The function `theme_toggle` of `main.js`.  The source leaves the first
branch with `return`, so the statements after the `if` are its `else`. -/
def theme_toggle : JS Unit := do
  if (← hasAttribute "data-theme") then
    classList_remove "theme-dark"
    classList_add "theme-light"
    removeAttribute "data-theme"
    localStorage_removeItem "site-theme"
  else
    console_log "toggle"
    classList_remove "theme-light"
    classList_add "theme-dark"
    setAttribute "data-theme" "dark"
    localStorage_setItem "site-theme" "dark"

/-- The function `theme_init` of `main.js`.  The inner `match` is the source's
`if (theme !== null)`, and yields the value `theme` has after it. -/
def theme_init : JS Unit := do
  let theme ← localStorage_getItem "site-theme"
  let theme ←
    match theme with
    | some theme => do
      setAttribute "data-theme" theme
      classList_remove "theme-dark"
      classList_remove "theme-light"
      pure theme
    | none => pure "light"
  console_log theme
  classList_add ("theme-" ++ theme)

/-- One click on the toggle control: the handler `theme_toggle` runs, and the
page is as the handler left it, whether it returned or threw. -/
def click (p : Page) : Page := (theme_toggle p).page

/-- The page after a number of clicks on the toggle control. -/
def clicks : Nat → Page → Page
  | 0, p => p
  | n + 1, p => clicks n (click p)

/-- A page load: a fresh root element and console, over the storage the page
before left behind. -/
def reload (fresh : Element) (log : List String) (q : Page) : Page :=
  { html := fresh
    localStorage := q.localStorage
    storageQuota := q.storageQuota
    console := log }

/-! ## Example pages -/

/-- A page whose root element is bare and whose storage is empty. -/
def barePage : Page :=
  { html := { attributes := [], classList := [] }
    localStorage := []
    storageQuota := 5000000
    console := [] }

/-- A bare page whose storage remembers the dark theme. -/
def storedDarkPage : Page :=
  { html := { attributes := [], classList := [] }
    localStorage := [("site-theme", "dark")]
    storageQuota := 5000000
    console := [] }

/-- A page in the light state, with a class and an attribute of its own. -/
def lightPage : Page :=
  { html := { attributes := [("lang", "en")], classList := ["no-js", "theme-light"] }
    localStorage := [("visits", "3")]
    storageQuota := 5000000
    console := [] }

/-- A page in the dark state, with a class and an attribute of its own. -/
def darkPage : Page :=
  { html :=
      { attributes := [("lang", "en"), ("data-theme", "dark")]
        classList := ["no-js", "theme-dark"] }
    localStorage := [("visits", "3"), ("site-theme", "dark")]
    storageQuota := 5000000
    console := [] }

/-- A bare page whose storage holds a theme name other than the two known ones. -/
def storedSepiaPage : Page :=
  { html := { attributes := [], classList := ["theme-dark"] }
    localStorage := [("site-theme", "sepia")]
    storageQuota := 5000000
    console := [] }

/-- A page in the light state whose storage has no room left. -/
def fullStoragePage : Page :=
  { html := { attributes := [], classList := ["theme-light"] }
    localStorage := [("draft", "0123456789")]
    storageQuota := 15
    console := [] }

/-- A page in the dark state whose root element carries a second `data-theme`
attribute. -/
def twoAttributesPage : Page :=
  { html :=
      { attributes := [("data-theme", "dark"), ("data-theme", "b")]
        classList := ["theme-dark"] }
    localStorage := [("site-theme", "dark")]
    storageQuota := 5000000
    console := [] }

/-- A page in the dark state whose storage quota has since been withdrawn. -/
def withdrawnQuotaPage : Page :=
  { html := { attributes := [("data-theme", "dark")], classList := ["theme-dark"] }
    localStorage := [("site-theme", "dark")]
    storageQuota := 0
    console := [] }

/-! ## The invariant -/

/-- Exactly one of the two theme classes is on the root element, and
`data-theme` is present exactly when that class is `theme-dark`. -/
def ThemeInv (q : Page) : Prop :=
  (("theme-light" ∈ q.html.classList ∧ "theme-dark" ∉ q.html.classList) ∨
    ("theme-light" ∉ q.html.classList ∧ "theme-dark" ∈ q.html.classList)) ∧
  (hasEntry "data-theme" q.html.attributes = true ↔ "theme-dark" ∈ q.html.classList)

/-! ## Lemmas on entries and token sets -/

theorem getEntry_eq_none_iff (name : String) (l : List (String × String)) :
    getEntry name l = none ↔ hasEntry name l = false := by
  unfold hasEntry
  cases getEntry name l <;> simp

theorem getEntry_setEntry_self (name value : String) (l : List (String × String)) :
    getEntry name (setEntry name value l) = some value := by
  induction l with
  | nil => simp [setEntry, getEntry]
  | cons kv l ih =>
    by_cases hk : kv.1 = name <;> simp [setEntry, getEntry, hk, ih]

theorem hasEntry_setEntry_self (name value : String) (l : List (String × String)) :
    hasEntry name (setEntry name value l) = true := by
  simp [hasEntry, getEntry_setEntry_self]

theorem getEntry_setEntry_ne (name other value : String) (l : List (String × String))
    (h : other ≠ name) : getEntry other (setEntry name value l) = getEntry other l := by
  induction l with
  | nil => simp [setEntry, getEntry, Ne.symm h]
  | cons kv l ih =>
    by_cases hk : kv.1 = name
    · have : ¬ kv.1 = other := fun e => h (e.symm.trans hk)
      simp [setEntry, getEntry, hk, Ne.symm h]
    · by_cases ho : kv.1 = other
      · simp [setEntry, getEntry, ho, h]
      · simp [setEntry, getEntry, hk, ho, ih]

theorem getEntry_removeEntry_self (name : String) (l : List (String × String)) :
    getEntry name (removeEntry name l) = none := by
  induction l with
  | nil => rfl
  | cons kv l ih =>
    by_cases hk : kv.1 = name <;> simp [removeEntry, getEntry, hk, ih]

theorem hasEntry_removeEntry_self (name : String) (l : List (String × String)) :
    hasEntry name (removeEntry name l) = false := by
  simp [hasEntry, getEntry_removeEntry_self]

theorem getEntry_removeEntry_ne (name other : String) (l : List (String × String))
    (h : other ≠ name) : getEntry other (removeEntry name l) = getEntry other l := by
  induction l with
  | nil => rfl
  | cons kv l ih =>
    by_cases hk : kv.1 = name
    · have : ¬ kv.1 = other := fun e => h (e.symm.trans hk)
      simp [removeEntry, getEntry, hk, Ne.symm h, ih]
    · by_cases ho : kv.1 = other
      · simp [removeEntry, getEntry, ho, h]
      · simp [removeEntry, getEntry, hk, ho, ih]

theorem removeEntry_of_not_hasEntry (name : String) (l : List (String × String))
    (h : hasEntry name l = false) : removeEntry name l = l := by
  induction l with
  | nil => rfl
  | cons kv l ih =>
    by_cases hk : kv.1 = name
    · simp [hasEntry, getEntry, hk] at h
    · have h2 : hasEntry name l = false := by simpa [hasEntry, getEntry, hk] using h
      simp [removeEntry, hk, ih h2]

theorem removeEntry_setEntry_of_not_hasEntry (name value : String)
    (l : List (String × String)) (h : hasEntry name l = false) :
    removeEntry name (setEntry name value l) = l := by
  induction l with
  | nil => simp [setEntry, removeEntry]
  | cons kv l ih =>
    by_cases hk : kv.1 = name
    · simp [hasEntry, getEntry, hk] at h
    · have h2 : hasEntry name l = false := by simpa [hasEntry, getEntry, hk] using h
      simp [setEntry, removeEntry, hk, ih h2]

theorem getEntry_removeFirstEntry_ne (name other : String) (l : List (String × String))
    (h : other ≠ name) : getEntry other (removeFirstEntry name l) = getEntry other l := by
  induction l with
  | nil => rfl
  | cons kv l ih =>
    by_cases hk : kv.1 = name
    · have : ¬ kv.1 = other := fun e => h (e.symm.trans hk)
      simp [removeFirstEntry, getEntry, hk, Ne.symm h]
    · by_cases ho : kv.1 = other
      · simp [removeFirstEntry, getEntry, ho, h]
      · simp [removeFirstEntry, getEntry, hk, ho, ih]

theorem removeFirstEntry_setEntry_of_not_hasEntry (name value : String)
    (l : List (String × String)) (h : hasEntry name l = false) :
    removeFirstEntry name (setEntry name value l) = l := by
  induction l with
  | nil => simp [setEntry, removeFirstEntry]
  | cons kv l ih =>
    by_cases hk : kv.1 = name
    · simp [hasEntry, getEntry, hk] at h
    · have h2 : hasEntry name l = false := by simpa [hasEntry, getEntry, hk] using h
      simp [setEntry, removeFirstEntry, hk, ih h2]

theorem countEntries_eq_zero_iff (name : String) (l : List (String × String)) :
    countEntries name l = 0 ↔ hasEntry name l = false := by
  induction l with
  | nil => simp [countEntries, hasEntry, getEntry]
  | cons kv l ih =>
    by_cases hk : kv.1 = name
    · simp [countEntries, hasEntry, getEntry, hk]
    · simpa [countEntries, hasEntry, getEntry, hk] using ih

/-- With at most one entry under a name, removing the first leaves none. -/
theorem hasEntry_removeFirstEntry_of_count_le_one (name : String)
    (l : List (String × String)) (h : countEntries name l ≤ 1) :
    hasEntry name (removeFirstEntry name l) = false := by
  induction l with
  | nil => rfl
  | cons kv l ih =>
    by_cases hk : kv.1 = name
    · have h0 : countEntries name l = 0 := by
        simp only [countEntries, hk, if_true] at h
        omega
      simpa [removeFirstEntry, hk] using (countEntries_eq_zero_iff name l).1 h0
    · have h1 : countEntries name l ≤ 1 := by simpa [countEntries, hk] using h
      simpa [removeFirstEntry, hasEntry, getEntry, hk] using ih h1

theorem getEntry_removeFirstEntry_of_count_le_one (name : String)
    (l : List (String × String)) (h : countEntries name l ≤ 1) :
    getEntry name (removeFirstEntry name l) = none :=
  (getEntry_eq_none_iff _ _).2 (hasEntry_removeFirstEntry_of_count_le_one name l h)

theorem countEntries_setEntry_of_not_hasEntry (name value : String)
    (l : List (String × String)) (h : hasEntry name l = false) :
    countEntries name (setEntry name value l) = 1 := by
  induction l with
  | nil => simp [setEntry, countEntries]
  | cons kv l ih =>
    by_cases hk : kv.1 = name
    · simp [hasEntry, getEntry, hk] at h
    · have h2 : hasEntry name l = false := by simpa [hasEntry, getEntry, hk] using h
      simp [setEntry, countEntries, hk, ih h2]

theorem storageSize_removeEntry_le (name : String) (l : List (String × String)) :
    storageSize (removeEntry name l) ≤ storageSize l := by
  induction l with
  | nil => simp [removeEntry]
  | cons kv l ih =>
    by_cases hk : kv.1 = name
    · simp only [removeEntry, hk, if_true, storageSize]
      omega
    · simp only [removeEntry, hk, if_false, storageSize]
      omega

theorem storageSize_setEntry_of_not_hasEntry (name value : String)
    (l : List (String × String)) (h : hasEntry name l = false) :
    storageSize (setEntry name value l) = storageSize l + (name.length + value.length) := by
  induction l with
  | nil => simp [setEntry, storageSize]
  | cons kv l ih =>
    by_cases hk : kv.1 = name
    · simp [hasEntry, getEntry, hk] at h
    · have h2 : hasEntry name l = false := by simpa [hasEntry, getEntry, hk] using h
      simp only [setEntry, hk, if_false, storageSize, ih h2]
      omega

/-- Writing back an entry that was stored takes no more room than before. -/
theorem storageSize_setEntry_removeEntry_le (name value : String)
    (l : List (String × String)) (h : getEntry name l = some value) :
    storageSize (setEntry name value (removeEntry name l)) ≤ storageSize l := by
  induction l with
  | nil => simp [getEntry] at h
  | cons kv l ih =>
    by_cases hk : kv.1 = name
    · have hv : kv.2 = value := by simpa [getEntry, hk] using h
      have h1 := storageSize_setEntry_of_not_hasEntry name value (removeEntry name l)
        (hasEntry_removeEntry_self name l)
      have h2 := storageSize_removeEntry_le name l
      simp only [removeEntry, hk, if_true, storageSize, hv]
      omega
    · have h1 : getEntry name l = some value := by simpa [getEntry, hk] using h
      have h2 := ih h1
      simp only [removeEntry, setEntry, hk, if_false, storageSize]
      omega

theorem mem_tokenSetAppend (t token : String) (l : List String) :
    t ∈ tokenSetAppend token l ↔ t ∈ l ∨ t = token := by
  unfold tokenSetAppend
  split
  · rename_i h
    have : token ∈ l := by simpa using h
    constructor
    · exact Or.inl
    · rintro (h1 | h1)
      · exact h1
      · exact h1 ▸ this
  · simp

theorem mem_tokenSetRemove (t token : String) (l : List String) :
    t ∈ tokenSetRemove token l ↔ t ∈ l ∧ t ≠ token := by
  simp [tokenSetRemove]

theorem tokenSetRemove_of_not_mem (token : String) (l : List String) (h : token ∉ l) :
    tokenSetRemove token l = l := by
  unfold tokenSetRemove
  rw [List.filter_eq_self]
  intro t ht
  have : t ≠ token := fun e => h (e ▸ ht)
  simpa using this

theorem tokenSetRemove_tokenSetAppend_of_not_mem (token : String) (l : List String)
    (h : token ∉ l) : tokenSetRemove token (tokenSetAppend token l) = l := by
  have h2 := tokenSetRemove_of_not_mem token l h
  unfold tokenSetAppend
  have : l.contains token = false := by simpa using h
  simp only [this]
  unfold tokenSetRemove at *
  simp [List.filter_append, h2]

/-! ## What the two functions compute -/

theorem validateToken_theme_dark : validateToken "theme-dark" = .ok () := by rfl

theorem validateToken_theme_light : validateToken "theme-light" = .ok () := by rfl

/-- The branch of `theme_toggle` taken when `data-theme` is present. -/
theorem theme_toggle_of_hasAttribute (p : Page)
    (h : hasEntry "data-theme" p.html.attributes = true) :
    theme_toggle p = .normal ()
      { html :=
          { attributes := removeFirstEntry "data-theme" p.html.attributes
            classList := tokenSetAppend "theme-light" (tokenSetRemove "theme-dark" p.html.classList) }
        localStorage := removeEntry "site-theme" p.localStorage
        storageQuota := p.storageQuota
        console := p.console } := by
  simp [theme_toggle, bind, JS.bind, hasAttribute, h, classList_remove, classList_add,
    removeAttribute, localStorage_removeItem, validateToken_theme_dark, validateToken_theme_light]

/-- The branch of `theme_toggle` taken when `data-theme` is absent, when the
write to storage fits the quota. -/
theorem theme_toggle_of_not_hasAttribute (p : Page)
    (h : hasEntry "data-theme" p.html.attributes = false)
    (hfit : storageSize (setEntry "site-theme" "dark" p.localStorage) ≤ p.storageQuota) :
    theme_toggle p = .normal ()
      { html :=
          { attributes := setEntry "data-theme" "dark" p.html.attributes
            classList := tokenSetAppend "theme-dark" (tokenSetRemove "theme-light" p.html.classList) }
        localStorage := setEntry "site-theme" "dark" p.localStorage
        storageQuota := p.storageQuota
        console := p.console ++ ["toggle"] } := by
  simp [theme_toggle, bind, JS.bind, hasAttribute, h, classList_remove, classList_add,
    setAttribute, localStorage_setItem, console_log, validateToken_theme_dark,
    validateToken_theme_light, hfit]

/-- The branch of `theme_toggle` taken when `data-theme` is absent, when the
write to storage does not fit the quota: the root element is dark already and
the call throws with the storage as it was. -/
theorem theme_toggle_of_not_hasAttribute_of_full (p : Page)
    (h : hasEntry "data-theme" p.html.attributes = false)
    (hfull : ¬ storageSize (setEntry "site-theme" "dark" p.localStorage) ≤ p.storageQuota) :
    theme_toggle p = .abrupt .QuotaExceededError
      { html :=
          { attributes := setEntry "data-theme" "dark" p.html.attributes
            classList := tokenSetAppend "theme-dark" (tokenSetRemove "theme-light" p.html.classList) }
        localStorage := p.localStorage
        storageQuota := p.storageQuota
        console := p.console ++ ["toggle"] } := by
  simp [theme_toggle, bind, JS.bind, hasAttribute, h, classList_remove, classList_add,
    setAttribute, localStorage_setItem, console_log, validateToken_theme_dark,
    validateToken_theme_light, hfull]

/-- A click on a page with `data-theme`. -/
theorem click_of_hasAttribute (p : Page)
    (h : hasEntry "data-theme" p.html.attributes = true) :
    click p =
      { html :=
          { attributes := removeFirstEntry "data-theme" p.html.attributes
            classList := tokenSetAppend "theme-light" (tokenSetRemove "theme-dark" p.html.classList) }
        localStorage := removeEntry "site-theme" p.localStorage
        storageQuota := p.storageQuota
        console := p.console } := by
  simp [click, theme_toggle_of_hasAttribute p h, Completion.page]

/-- A click on a page without `data-theme`: the entry is stored when it fits. -/
theorem click_of_not_hasAttribute (p : Page)
    (h : hasEntry "data-theme" p.html.attributes = false) :
    click p =
      { html :=
          { attributes := setEntry "data-theme" "dark" p.html.attributes
            classList := tokenSetAppend "theme-dark" (tokenSetRemove "theme-light" p.html.classList) }
        localStorage :=
          if storageSize (setEntry "site-theme" "dark" p.localStorage) ≤ p.storageQuota then
            setEntry "site-theme" "dark" p.localStorage
          else p.localStorage
        storageQuota := p.storageQuota
        console := p.console ++ ["toggle"] } := by
  by_cases hfit : storageSize (setEntry "site-theme" "dark" p.localStorage) ≤ p.storageQuota
  · simp [click, theme_toggle_of_not_hasAttribute p h hfit, Completion.page, hfit]
  · simp [click, theme_toggle_of_not_hasAttribute_of_full p h hfit, Completion.page, hfit]

/-- The run of `theme_init` when storage holds no `site-theme` entry. -/
theorem theme_init_of_no_item (p : Page) (h : getEntry "site-theme" p.localStorage = none) :
    theme_init p = .normal ()
      { html :=
          { attributes := p.html.attributes
            classList := tokenSetAppend "theme-light" p.html.classList }
        localStorage := p.localStorage
        storageQuota := p.storageQuota
        console := p.console ++ ["light"] } := by
  simp [theme_init, bind, JS.bind, localStorage_getItem, h, pure, JS.pure, console_log,
    classList_add, validateToken_theme_light]

/-- The run of `theme_init` when storage holds a `site-theme` entry that makes a
valid class token. -/
theorem theme_init_of_item (p : Page) (v : String)
    (h : getEntry "site-theme" p.localStorage = some v)
    (hv : validateToken ("theme-" ++ v) = .ok ()) :
    theme_init p = .normal ()
      { html :=
          { attributes := setEntry "data-theme" v p.html.attributes
            classList := tokenSetAppend ("theme-" ++ v)
              (tokenSetRemove "theme-light" (tokenSetRemove "theme-dark" p.html.classList)) }
        localStorage := p.localStorage
        storageQuota := p.storageQuota
        console := p.console ++ [v] } := by
  simp [theme_init, bind, JS.bind, localStorage_getItem, h, pure, JS.pure, console_log,
    classList_add, classList_remove, setAttribute, validateToken_theme_dark,
    validateToken_theme_light, hv]

/-- A click on a page with at most one `data-theme` attribute leaves the
invariant, and again at most one `data-theme` attribute. -/
theorem click_establishes (p : Page)
    (hone : countEntries "data-theme" p.html.attributes ≤ 1) :
    ThemeInv (click p) ∧ countEntries "data-theme" (click p).html.attributes ≤ 1 := by
  cases h : hasEntry "data-theme" p.html.attributes with
  | true =>
    have hgone := hasEntry_removeFirstEntry_of_count_le_one _ _ hone
    rw [click_of_hasAttribute p h]
    refine ⟨?_, ?_⟩
    · simp [ThemeInv, mem_tokenSetAppend, mem_tokenSetRemove, hgone]
    · have h0 := (countEntries_eq_zero_iff _ _).2 hgone
      show countEntries "data-theme" (removeFirstEntry "data-theme" p.html.attributes) ≤ 1
      omega
  | false =>
    rw [click_of_not_hasAttribute p h]
    refine ⟨?_, ?_⟩
    · simp [ThemeInv, mem_tokenSetAppend, mem_tokenSetRemove, hasEntry_setEntry_self]
    · exact Nat.le_of_eq (countEntries_setEntry_of_not_hasEntry _ _ _ h)

/-- From a page with the invariant and at most one `data-theme` attribute, any
number of clicks leave the invariant. -/
theorem clicks_preserves (n : Nat) :
    ∀ p : Page, ThemeInv p → countEntries "data-theme" p.html.attributes ≤ 1 →
      ThemeInv (clicks n p) := by
  induction n with
  | zero =>
    intro p hp _
    exact hp
  | succ n ih =>
    intro p _ hone
    obtain ⟨hinv, hone2⟩ := click_establishes p hone
    exact ih (click p) hinv hone2

/-- Two clicks on a page without `data-theme`. -/
theorem click_click_of_not_hasAttribute (p : Page)
    (h : hasEntry "data-theme" p.html.attributes = false) :
    click (click p) =
      { html :=
          { attributes := removeFirstEntry "data-theme" (setEntry "data-theme" "dark" p.html.attributes)
            classList := tokenSetAppend "theme-light" (tokenSetRemove "theme-dark"
              (tokenSetAppend "theme-dark" (tokenSetRemove "theme-light" p.html.classList))) }
        localStorage := removeEntry "site-theme"
          (if storageSize (setEntry "site-theme" "dark" p.localStorage) ≤ p.storageQuota then
            setEntry "site-theme" "dark" p.localStorage
          else p.localStorage)
        storageQuota := p.storageQuota
        console := p.console ++ ["toggle"] } := by
  have h2 : hasEntry "data-theme" (click p).html.attributes = true := by
    rw [click_of_not_hasAttribute p h]
    exact hasEntry_setEntry_self _ _ _
  rw [click_of_hasAttribute (click p) h2, click_of_not_hasAttribute p h]

/-- Two clicks on a page with one `data-theme` attribute. -/
theorem click_click_of_hasAttribute (p : Page)
    (h : hasEntry "data-theme" p.html.attributes = true)
    (hone : countEntries "data-theme" p.html.attributes ≤ 1) :
    click (click p) =
      { html :=
          { attributes := setEntry "data-theme" "dark" (removeFirstEntry "data-theme" p.html.attributes)
            classList := tokenSetAppend "theme-dark" (tokenSetRemove "theme-light"
              (tokenSetAppend "theme-light" (tokenSetRemove "theme-dark" p.html.classList))) }
        localStorage :=
          if storageSize (setEntry "site-theme" "dark" (removeEntry "site-theme" p.localStorage)) ≤
              p.storageQuota then
            setEntry "site-theme" "dark" (removeEntry "site-theme" p.localStorage)
          else removeEntry "site-theme" p.localStorage
        storageQuota := p.storageQuota
        console := p.console ++ ["toggle"] } := by
  have h2 : hasEntry "data-theme" (click p).html.attributes = false := by
    rw [click_of_hasAttribute p h]
    exact hasEntry_removeFirstEntry_of_count_le_one _ _ hone
  rw [click_of_not_hasAttribute (click p) h2, click_of_hasAttribute p h]

/-! ## The claims -/

/-- C1: for a root element without `data-theme` and without either theme
class, and a stored `site-theme` that is absent or `dark`, `theme_init` ends
normally, and on the page it leaves and on the page after any number of
`theme_toggle` calls exactly one of `theme-light` and `theme-dark` is in the
class list and `data-theme` is present if and only if that class is
`theme-dark`. -/
theorem init_then_toggles_invariant (p : Page) (n : Nat)
    (hattr : hasEntry "data-theme" p.html.attributes = false)
    (_hlight : "theme-light" ∉ p.html.classList)
    (hdark : "theme-dark" ∉ p.html.classList)
    (hstore : getEntry "site-theme" p.localStorage = none ∨
      getEntry "site-theme" p.localStorage = some "dark") :
    ∃ q₀, theme_init p = .normal () q₀ ∧
      (("theme-light" ∈ (clicks n q₀).html.classList ∧
          "theme-dark" ∉ (clicks n q₀).html.classList) ∨
        ("theme-light" ∉ (clicks n q₀).html.classList ∧
          "theme-dark" ∈ (clicks n q₀).html.classList)) ∧
      (hasEntry "data-theme" (clicks n q₀).html.attributes = true ↔
        "theme-dark" ∈ (clicks n q₀).html.classList) := by
  have hinit : ∃ q₀, theme_init p = .normal () q₀ ∧ ThemeInv q₀ ∧
      countEntries "data-theme" q₀.html.attributes ≤ 1 := by
    rcases hstore with hs | hs
    · refine ⟨_, theme_init_of_no_item p hs, ?_, ?_⟩
      · simp [ThemeInv, mem_tokenSetAppend, hattr, hdark]
      · have h0 := (countEntries_eq_zero_iff _ _).2 hattr
        show countEntries "data-theme" p.html.attributes ≤ 1
        omega
    · refine ⟨_, theme_init_of_item p "dark" hs validateToken_theme_dark, ?_, ?_⟩
      · simp [ThemeInv, mem_tokenSetAppend, mem_tokenSetRemove, hasEntry_setEntry_self]
      · exact Nat.le_of_eq (countEntries_setEntry_of_not_hasEntry _ _ _ hattr)
  obtain ⟨q₀, hq, hinv, hone⟩ := hinit
  exact ⟨q₀, hq, clicks_preserves n q₀ hinv hone⟩

/-- C1 at a concrete input: the bare page with `dark` stored, three toggles. -/
theorem init_then_toggles_invariant_witness :
    ∃ q₀, theme_init storedDarkPage = .normal () q₀ ∧
      (("theme-light" ∈ (clicks 3 q₀).html.classList ∧
          "theme-dark" ∉ (clicks 3 q₀).html.classList) ∨
        ("theme-light" ∉ (clicks 3 q₀).html.classList ∧
          "theme-dark" ∈ (clicks 3 q₀).html.classList)) ∧
      (hasEntry "data-theme" (clicks 3 q₀).html.attributes = true ↔
        "theme-dark" ∈ (clicks 3 q₀).html.classList) :=
  init_then_toggles_invariant storedDarkPage 3 (by rfl) (by simp [storedDarkPage])
    (by simp [storedDarkPage]) (Or.inr (by rfl))

/-- C2: when storage holds `site-theme` = `dark`, then whatever the root
element looks like, `theme_init` ends normally with `data-theme` equal to
`dark`, the class `theme-dark` present and the class `theme-light` absent. -/
theorem init_restores_dark (p : Page)
    (hstore : getEntry "site-theme" p.localStorage = some "dark") :
    ∃ q, theme_init p = .normal () q ∧
      getEntry "data-theme" q.html.attributes = some "dark" ∧
      "theme-dark" ∈ q.html.classList ∧
      "theme-light" ∉ q.html.classList := by
  refine ⟨_, theme_init_of_item p "dark" hstore validateToken_theme_dark, ?_⟩
  simp [mem_tokenSetAppend, mem_tokenSetRemove, getEntry_setEntry_self]

/-- C2 at a concrete input: a page left in the dark state by an earlier visit. -/
theorem init_restores_dark_witness :
    ∃ q, theme_init darkPage = .normal () q ∧
      getEntry "data-theme" q.html.attributes = some "dark" ∧
      "theme-dark" ∈ q.html.classList ∧
      "theme-light" ∉ q.html.classList :=
  init_restores_dark darkPage (by rfl)

/-- C3: when storage holds no `site-theme` entry and the root element has no
`data-theme` attribute, `theme_init` ends normally with the class `theme-light`
present and still no `data-theme` attribute. -/
theorem init_default_light (p : Page)
    (hstore : getEntry "site-theme" p.localStorage = none)
    (hattr : hasEntry "data-theme" p.html.attributes = false) :
    ∃ q, theme_init p = .normal () q ∧
      "theme-light" ∈ q.html.classList ∧
      hasEntry "data-theme" q.html.attributes = false := by
  refine ⟨_, theme_init_of_no_item p hstore, ?_⟩
  simp [mem_tokenSetAppend, hattr]

/-- C3 at a concrete input: the bare page. -/
theorem init_default_light_witness :
    ∃ q, theme_init barePage = .normal () q ∧
      "theme-light" ∈ q.html.classList ∧
      hasEntry "data-theme" q.html.attributes = false :=
  init_default_light barePage (by rfl) (by rfl)

/-- C4 fails as stated: on a page without `data-theme` whose storage has no
room left, `theme_toggle` throws `QuotaExceededError` and leaves no `site-theme`
entry in storage. -/
theorem toggle_light_to_dark_fails_on_full_storage :
    hasEntry "data-theme" fullStoragePage.html.attributes = false ∧
    ∃ q, theme_toggle fullStoragePage = .abrupt .QuotaExceededError q ∧
      getEntry "site-theme" q.localStorage = none :=
  ⟨by rfl, _, theme_toggle_of_not_hasAttribute_of_full fullStoragePage (by rfl) (by decide),
    by rfl⟩

/-- C4, amended: from any page whose root element has no `data-theme`
attribute, one `theme_toggle` call leaves `data-theme` equal to `dark`, the
class `theme-dark` present and the class `theme-light` absent; and when the
storage has room for the `site-theme` entry, the call ends normally with
`site-theme` stored as `dark`. -/
theorem toggle_light_to_dark (p : Page)
    (hattr : hasEntry "data-theme" p.html.attributes = false) :
    getEntry "data-theme" (click p).html.attributes = some "dark" ∧
    "theme-dark" ∈ (click p).html.classList ∧
    "theme-light" ∉ (click p).html.classList ∧
    (storageSize (setEntry "site-theme" "dark" p.localStorage) ≤ p.storageQuota →
      theme_toggle p = .normal () (click p) ∧
      getEntry "site-theme" (click p).localStorage = some "dark") := by
  refine ⟨?_, ?_, ?_, ?_⟩
  · rw [click_of_not_hasAttribute p hattr]
    exact getEntry_setEntry_self _ _ _
  · rw [click_of_not_hasAttribute p hattr]
    simp [mem_tokenSetAppend]
  · rw [click_of_not_hasAttribute p hattr]
    simp [mem_tokenSetAppend, mem_tokenSetRemove]
  · intro hfit
    have hrun := theme_toggle_of_not_hasAttribute p hattr hfit
    have hclick : click p = _ := congrArg Completion.page hrun
    rw [hclick]
    exact ⟨hrun, getEntry_setEntry_self _ _ _⟩

/-- C4, amended, at a concrete input: a page in the light state with room in
its storage. -/
theorem toggle_light_to_dark_witness :
    getEntry "data-theme" (click lightPage).html.attributes = some "dark" ∧
    "theme-dark" ∈ (click lightPage).html.classList ∧
    "theme-light" ∉ (click lightPage).html.classList ∧
    theme_toggle lightPage = .normal () (click lightPage) ∧
    getEntry "site-theme" (click lightPage).localStorage = some "dark" :=
  ⟨(toggle_light_to_dark lightPage (by rfl)).1,
    (toggle_light_to_dark lightPage (by rfl)).2.1,
    (toggle_light_to_dark lightPage (by rfl)).2.2.1,
    (toggle_light_to_dark lightPage (by rfl)).2.2.2 (by decide)⟩

/-- C5 fails as stated: on a root element with two `data-theme` attributes,
`theme_toggle` removes the first and `data-theme` is still present. -/
theorem toggle_dark_to_light_fails_on_two_attributes :
    hasEntry "data-theme" twoAttributesPage.html.attributes = true ∧
    ∃ q, theme_toggle twoAttributesPage = .normal () q ∧
      hasEntry "data-theme" q.html.attributes = true :=
  ⟨by rfl, _, theme_toggle_of_hasAttribute twoAttributesPage (by rfl), by rfl⟩

/-- C5, amended: from any page whose root element has exactly one `data-theme`
attribute, of any value, one `theme_toggle` call ends normally with no
`data-theme` attribute, the class `theme-light` present, the class `theme-dark`
absent, and no `site-theme` entry in storage. -/
theorem toggle_dark_to_light (p : Page)
    (hone : countEntries "data-theme" p.html.attributes = 1) :
    ∃ q, theme_toggle p = .normal () q ∧
      hasEntry "data-theme" q.html.attributes = false ∧
      "theme-light" ∈ q.html.classList ∧
      "theme-dark" ∉ q.html.classList ∧
      getEntry "site-theme" q.localStorage = none := by
  have hattr : hasEntry "data-theme" p.html.attributes = true := by
    cases h : hasEntry "data-theme" p.html.attributes with
    | true => rfl
    | false =>
      have h0 := (countEntries_eq_zero_iff _ _).2 h
      omega
  refine ⟨_, theme_toggle_of_hasAttribute p hattr, ?_⟩
  simp [mem_tokenSetAppend, mem_tokenSetRemove, getEntry_removeEntry_self,
    hasEntry_removeFirstEntry_of_count_le_one _ _ (Nat.le_of_eq hone)]

/-- C5, amended, at a concrete input: a page in the dark state. -/
theorem toggle_dark_to_light_witness :
    ∃ q, theme_toggle darkPage = .normal () q ∧
      hasEntry "data-theme" q.html.attributes = false ∧
      "theme-light" ∈ q.html.classList ∧
      "theme-dark" ∉ q.html.classList ∧
      getEntry "site-theme" q.localStorage = none :=
  toggle_dark_to_light darkPage (by rfl)

/-- C6: start from the page `theme_init` produces when storage holds no
`site-theme` entry and the root element has no `data-theme` attribute and
neither theme class; two `theme_toggle` calls leave the root element (its
attributes and its class list) and the storage exactly as they were before the
two calls. -/
theorem toggle_twice_from_default (p : Page)
    (hstore : getEntry "site-theme" p.localStorage = none)
    (hattr : hasEntry "data-theme" p.html.attributes = false)
    (hlight : "theme-light" ∉ p.html.classList)
    (hdark : "theme-dark" ∉ p.html.classList) :
    ∃ q₀, theme_init p = .normal () q₀ ∧
      (click (click q₀)).html = q₀.html ∧
      (click (click q₀)).localStorage = q₀.localStorage := by
  have hstore2 : hasEntry "site-theme" p.localStorage = false :=
    (getEntry_eq_none_iff _ _).1 hstore
  have h1 : tokenSetRemove "theme-light" (tokenSetAppend "theme-light" p.html.classList) =
      p.html.classList := tokenSetRemove_tokenSetAppend_of_not_mem _ _ hlight
  have h2 : tokenSetRemove "theme-dark" (tokenSetAppend "theme-dark" p.html.classList) =
      p.html.classList := tokenSetRemove_tokenSetAppend_of_not_mem _ _ hdark
  have key := click_click_of_not_hasAttribute
    { html :=
        { attributes := p.html.attributes
          classList := tokenSetAppend "theme-light" p.html.classList }
      localStorage := p.localStorage
      storageQuota := p.storageQuota
      console := p.console ++ ["light"] } hattr
  refine ⟨_, theme_init_of_no_item p hstore, ?_, ?_⟩
  · rw [key]
    simp [h1, h2, removeFirstEntry_setEntry_of_not_hasEntry _ _ _ hattr]
  · rw [key]
    by_cases hfit : storageSize (setEntry "site-theme" "dark" p.localStorage) ≤ p.storageQuota
    · simp [hfit, removeEntry_setEntry_of_not_hasEntry _ _ _ hstore2]
    · simp [hfit, removeEntry_of_not_hasEntry _ _ hstore2]

/-- C6 at a concrete input: a root element with a class and an attribute of
its own, and storage with an unrelated entry. -/
theorem toggle_twice_from_default_witness :
    ∃ q₀,
      theme_init
        { html := { attributes := [("lang", "en")], classList := ["no-js"] }
          localStorage := [("visits", "3")]
          storageQuota := 5000000
          console := [] } = .normal () q₀ ∧
      (click (click q₀)).html = q₀.html ∧
      (click (click q₀)).localStorage = q₀.localStorage :=
  toggle_twice_from_default
    { html := { attributes := [("lang", "en")], classList := ["no-js"] }
      localStorage := [("visits", "3")]
      storageQuota := 5000000
      console := [] }
    (by rfl) (by rfl) (by decide) (by decide)

/-- C7 fails as stated.  On the bare page (no attribute, no class, empty
storage) two `theme_toggle` calls end with the class `theme-light` on the root
element, which was not there before.  On a dark page with a second `data-theme`
attribute they end without `data-theme`.  On a dark page whose storage quota has
been withdrawn they end without the `site-theme` entry. -/
theorem toggle_twice_not_identity :
    ("theme-light" ∈ (click (click barePage)).html.classList ∧
      "theme-light" ∉ barePage.html.classList) ∧
    (getEntry "data-theme" twoAttributesPage.html.attributes = some "dark" ∧
      getEntry "data-theme" (click (click twoAttributesPage)).html.attributes = none) ∧
    (getEntry "site-theme" withdrawnQuotaPage.localStorage = some "dark" ∧
      getEntry "site-theme" (click (click withdrawnQuotaPage)).localStorage = none) := by
  refine ⟨⟨?_, by decide⟩, ⟨by rfl, ?_⟩, ⟨by rfl, ?_⟩⟩
  · rw [click_click_of_not_hasAttribute barePage (by rfl)]
    decide
  · have h1 : click twoAttributesPage = _ := click_of_hasAttribute twoAttributesPage (by rfl)
    rw [h1, click_of_hasAttribute _ (by rfl)]
    rfl
  · rw [click_click_of_hasAttribute withdrawnQuotaPage (by rfl) (by decide)]
    rfl

/-- C7, amended: from a page in one of the two states the script itself
produces, the light one (no `data-theme`, `theme-light` present, `theme-dark`
absent, no `site-theme` entry) or the dark one (exactly one `data-theme`
attribute, equal to `dark`, `theme-dark` present, `theme-light` absent,
`site-theme` stored as `dark`, the storage within its quota), two `theme_toggle`
calls leave the `data-theme` attribute, the membership of the two theme classes
and the `site-theme` entry as they were before the first call. -/
theorem toggle_twice_of_consistent (p : Page)
    (h : (getEntry "data-theme" p.html.attributes = none ∧
          "theme-light" ∈ p.html.classList ∧
          "theme-dark" ∉ p.html.classList ∧
          getEntry "site-theme" p.localStorage = none) ∨
        (getEntry "data-theme" p.html.attributes = some "dark" ∧
          countEntries "data-theme" p.html.attributes = 1 ∧
          "theme-dark" ∈ p.html.classList ∧
          "theme-light" ∉ p.html.classList ∧
          getEntry "site-theme" p.localStorage = some "dark" ∧
          storageSize p.localStorage ≤ p.storageQuota)) :
    getEntry "data-theme" (click (click p)).html.attributes =
      getEntry "data-theme" p.html.attributes ∧
    ("theme-light" ∈ (click (click p)).html.classList ↔ "theme-light" ∈ p.html.classList) ∧
    ("theme-dark" ∈ (click (click p)).html.classList ↔ "theme-dark" ∈ p.html.classList) ∧
    getEntry "site-theme" (click (click p)).localStorage =
      getEntry "site-theme" p.localStorage := by
  rcases h with ⟨ha, hl, hd, hs⟩ | ⟨ha, hone, hd, hl, hs, hquota⟩
  · have hattr : hasEntry "data-theme" p.html.attributes = false :=
      (getEntry_eq_none_iff _ _).1 ha
    rw [click_click_of_not_hasAttribute p hattr]
    simp [mem_tokenSetAppend, mem_tokenSetRemove, getEntry_removeEntry_self,
      removeFirstEntry_setEntry_of_not_hasEntry _ _ _ hattr, ha, hl, hd, hs]
  · have hattr : hasEntry "data-theme" p.html.attributes = true := by
      simp [hasEntry, ha]
    have hfit : storageSize (setEntry "site-theme" "dark"
        (removeEntry "site-theme" p.localStorage)) ≤ p.storageQuota :=
      Nat.le_trans (storageSize_setEntry_removeEntry_le _ _ _ hs) hquota
    rw [click_click_of_hasAttribute p hattr (Nat.le_of_eq hone)]
    simp [mem_tokenSetAppend, mem_tokenSetRemove, getEntry_setEntry_self, hfit, ha, hl, hd, hs]

/-- C7, amended, at a concrete input: a page in the dark state. -/
theorem toggle_twice_of_consistent_witness :
    getEntry "data-theme" (click (click darkPage)).html.attributes =
      getEntry "data-theme" darkPage.html.attributes ∧
    ("theme-light" ∈ (click (click darkPage)).html.classList ↔
      "theme-light" ∈ darkPage.html.classList) ∧
    ("theme-dark" ∈ (click (click darkPage)).html.classList ↔
      "theme-dark" ∈ darkPage.html.classList) ∧
    getEntry "site-theme" (click (click darkPage)).localStorage =
      getEntry "site-theme" darkPage.localStorage :=
  toggle_twice_of_consistent darkPage
    (Or.inr ⟨by rfl, by rfl, by decide, by decide, by rfl, by decide⟩)

/-- C8: when storage holds `site-theme` = `v` for any string `v` that makes
`theme-` followed by `v` a valid class token, then whatever the root element
looks like, `theme_init` ends normally with `data-theme` equal to `v`, the class
`theme-` followed by `v` present, each of `theme-dark` and `theme-light` absent
unless it is that class, and the storage unchanged. -/
theorem init_applies_stored_value (p : Page) (v : String)
    (hstore : getEntry "site-theme" p.localStorage = some v)
    (hvalid : validateToken ("theme-" ++ v) = .ok ()) :
    ∃ q, theme_init p = .normal () q ∧
      getEntry "data-theme" q.html.attributes = some v ∧
      "theme-" ++ v ∈ q.html.classList ∧
      ("theme-dark" ≠ "theme-" ++ v → "theme-dark" ∉ q.html.classList) ∧
      ("theme-light" ≠ "theme-" ++ v → "theme-light" ∉ q.html.classList) ∧
      q.localStorage = p.localStorage := by
  refine ⟨_, theme_init_of_item p v hstore hvalid, ?_⟩
  simp only [getEntry_setEntry_self, mem_tokenSetAppend, mem_tokenSetRemove]
  refine ⟨trivial, Or.inr trivial, ?_, ?_, trivial⟩
  · intro hne hmem
    rcases hmem with ⟨⟨_, h⟩, _⟩ | h
    · exact h rfl
    · exact hne h
  · intro hne hmem
    rcases hmem with ⟨_, h⟩ | h
    · exact h rfl
    · exact hne h

/-- C8 at a concrete input: `sepia` stored, and a stale `theme-dark` class. -/
theorem init_applies_stored_value_witness :
    ∃ q, theme_init storedSepiaPage = .normal () q ∧
      getEntry "data-theme" q.html.attributes = some "sepia" ∧
      "theme-" ++ "sepia" ∈ q.html.classList ∧
      ("theme-dark" ≠ "theme-" ++ "sepia" → "theme-dark" ∉ q.html.classList) ∧
      ("theme-light" ≠ "theme-" ++ "sepia" → "theme-light" ∉ q.html.classList) ∧
      q.localStorage = storedSepiaPage.localStorage :=
  init_applies_stored_value storedSepiaPage "sepia" (by rfl) (by rfl)

/-- C9 fails as stated.  On a page without `data-theme` whose storage has no
room left, `theme_toggle` leaves `data-theme` equal to `dark` but stores
nothing, and `theme_init` on a fresh root element leaves no `data-theme`.  On a
page with two `data-theme` attributes, `theme_toggle` leaves the second one,
and `theme_init` on a fresh root element leaves no `data-theme`. -/
theorem toggled_theme_lost_on_reload :
    (getEntry "data-theme" (click fullStoragePage).html.attributes = some "dark" ∧
      ∃ r, theme_init
          (reload { attributes := [], classList := [] } [] (click fullStoragePage)) =
            .normal () r ∧
        getEntry "data-theme" r.html.attributes = none) ∧
    (getEntry "data-theme" (click twoAttributesPage).html.attributes = some "b" ∧
      ∃ r, theme_init
          (reload { attributes := [], classList := [] } [] (click twoAttributesPage)) =
            .normal () r ∧
        getEntry "data-theme" r.html.attributes = none) := by
  have h1 : click fullStoragePage = _ := click_of_not_hasAttribute fullStoragePage (by rfl)
  have h2 : click twoAttributesPage = _ := click_of_hasAttribute twoAttributesPage (by rfl)
  refine ⟨⟨?_, _, theme_init_of_no_item _ ?_, ?_⟩, ⟨?_, _, theme_init_of_no_item _ ?_, ?_⟩⟩
  · rw [h1]; rfl
  · rw [h1]; rfl
  · rfl
  · rw [h2]; rfl
  · rw [h2]; rfl
  · rfl

/-- C9, amended: for every page whose root element has at most one
`data-theme` attribute and, when it has none, whose storage has room for the
`site-theme` entry, after a `theme_toggle` call `theme_init` run with the
storage it left, on a fresh root element (no `data-theme`, neither theme class),
ends normally with the same `data-theme` attribute and the same membership of
`theme-light` and `theme-dark` as the toggled root element. -/
theorem toggled_theme_survives_reload (p : Page) (fresh : Element) (log : List String)
    (hattr : hasEntry "data-theme" fresh.attributes = false)
    (_hlight : "theme-light" ∉ fresh.classList)
    (hdark : "theme-dark" ∉ fresh.classList)
    (hone : countEntries "data-theme" p.html.attributes ≤ 1)
    (hfit : hasEntry "data-theme" p.html.attributes = false →
      storageSize (setEntry "site-theme" "dark" p.localStorage) ≤ p.storageQuota) :
    ∃ r, theme_init (reload fresh log (click p)) = .normal () r ∧
      getEntry "data-theme" r.html.attributes =
        getEntry "data-theme" (click p).html.attributes ∧
      ("theme-light" ∈ r.html.classList ↔ "theme-light" ∈ (click p).html.classList) ∧
      ("theme-dark" ∈ r.html.classList ↔ "theme-dark" ∈ (click p).html.classList) := by
  cases h : hasEntry "data-theme" p.html.attributes with
  | true =>
    have hnone : getEntry "data-theme" fresh.attributes = none :=
      (getEntry_eq_none_iff _ _).2 hattr
    have hs : getEntry "site-theme" (reload fresh log (click p)).localStorage = none := by
      rw [click_of_hasAttribute p h]
      exact getEntry_removeEntry_self _ _
    refine ⟨_, theme_init_of_no_item _ hs, ?_⟩
    rw [click_of_hasAttribute p h]
    simp [reload, mem_tokenSetAppend, mem_tokenSetRemove, hnone, hdark,
      getEntry_removeFirstEntry_of_count_le_one _ _ hone]
  | false =>
    have hs : getEntry "site-theme" (reload fresh log (click p)).localStorage = some "dark" := by
      rw [click_of_not_hasAttribute p h]
      simp [reload, hfit h, getEntry_setEntry_self]
    refine ⟨_, theme_init_of_item _ "dark" hs validateToken_theme_dark, ?_⟩
    rw [click_of_not_hasAttribute p h]
    simp [reload, mem_tokenSetAppend, mem_tokenSetRemove, getEntry_setEntry_self]

/-- C9, amended, at a concrete input: toggle the light page, then reload into a
root element with a class and an attribute of its own. -/
theorem toggled_theme_survives_reload_witness :
    ∃ r, theme_init
        (reload { attributes := [("lang", "en")], classList := ["no-js"] } []
          (click lightPage)) = .normal () r ∧
      getEntry "data-theme" r.html.attributes =
        getEntry "data-theme" (click lightPage).html.attributes ∧
      ("theme-light" ∈ r.html.classList ↔ "theme-light" ∈ (click lightPage).html.classList) ∧
      ("theme-dark" ∈ r.html.classList ↔ "theme-dark" ∈ (click lightPage).html.classList) :=
  toggled_theme_survives_reload lightPage
    { attributes := [("lang", "en")], classList := ["no-js"] } []
    (by rfl) (by decide) (by decide) (by decide) (fun _ => by decide)

/-- C10: whatever the page, a `theme_toggle` call keeps every attribute of the
root element other than `data-theme`, the membership of every class other than
`theme-light` and `theme-dark`, and every storage entry other than
`site-theme`. -/
theorem toggle_frame (p : Page) :
    (∀ name, name ≠ "data-theme" →
      getEntry name (click p).html.attributes = getEntry name p.html.attributes) ∧
    (∀ c, c ≠ "theme-light" → c ≠ "theme-dark" →
      (c ∈ (click p).html.classList ↔ c ∈ p.html.classList)) ∧
    (∀ key, key ≠ "site-theme" →
      getEntry key (click p).localStorage = getEntry key p.localStorage) := by
  cases h : hasEntry "data-theme" p.html.attributes with
  | true =>
    rw [click_of_hasAttribute p h]
    refine ⟨?_, ?_, ?_⟩
    · intro name hne
      exact getEntry_removeFirstEntry_ne _ _ _ hne
    · intro c hl hd
      simp [mem_tokenSetAppend, mem_tokenSetRemove, hl, hd]
    · intro key hne
      exact getEntry_removeEntry_ne _ _ _ hne
  | false =>
    rw [click_of_not_hasAttribute p h]
    refine ⟨?_, ?_, ?_⟩
    · intro name hne
      exact getEntry_setEntry_ne _ _ _ _ hne
    · intro c hl hd
      simp [mem_tokenSetAppend, mem_tokenSetRemove, hl, hd]
    · intro key hne
      show getEntry key (if _ then _ else _) = _
      split
      · exact getEntry_setEntry_ne _ _ _ _ hne
      · rfl

end MainJs
